import Mathlib

/-!
Shallow embedding of `src/actor.rs` (a GenServer-style actor runtime).

Modelling conventions:
- `SteadyTime` is modelled as `Nat`; the monotonic clock is a function
  `clock : Nat → Nat` from the index of the `now()` call to the reading, and
  each state carries `ticks`, the number of `now()` calls made so far.
- The two mpsc channels are modelled as lists: `inbox` is the caller-to-actor
  queue still to be consumed by the run loop (with a `disconnected` flag for
  the case that all senders are gone), and `sent` is the list of messages the
  run loop has sent on the actor-to-caller channel, in order.  Sends on the
  actor-to-caller channel succeed (the caller side holds the receiver).
- A Rust `panic!` in a handler or in the run loop is modelled explicitly:
  handlers return `HandlerOut` (`ok` or `panicked`), and a run-loop iteration
  can end in `StepResult.panicked`.
- One `StepResult`/`step` is one iteration of the Rust `loop { ... }`.
-/

set_option maxRecDepth 4000

/-- Rust `Message<T>`: the envelope exchanged on both channels. -/
inductive Message (T : Type) where
  | Call : T → Message T
  | Cast : T → Message T
  | Info : T → Message T
  | Reply : T → Message T
deriving DecidableEq

/-- Rust `StopReason`. -/
inductive StopReason where
  | Normal : StopReason
  | Other : String → StopReason
deriving DecidableEq

/-- Rust `HandleResult<T>`: outcome a behavior callback returns. -/
inductive HandleResult (T : Type) where
  | Reply : T → Option Nat → HandleResult T
  | NoReply : Option Nat → HandleResult T
  | Stop : StopReason → Option T → HandleResult T
deriving DecidableEq

/-- Rust `ActorError<T>`. -/
inductive ActorError (T : Type) where
  | InitFailure : String → ActorError T
  | AbnormalShutdown : String → ActorError T
  | SendError : Message T → ActorError T
  | RecvError : ActorError T
deriving DecidableEq

/-- Outcome of invoking one behavior callback: either a `HandleResult` with
the updated state (the Rust callbacks mutate `&mut state`), or a panic with
its message. -/
inductive HandlerOut (T S : Type) where
  | ok : HandleResult T → S → HandlerOut T S
  | panicked : String → HandlerOut T S
deriving DecidableEq

/-- Rust trait `GenServer`: one behavior.  `init` returns the Rust
`InitResult<E> = Result<Option<u64>, E>` together with the (possibly mutated)
state.  `handle_call` also receives the actor-to-caller sender in Rust; the
behaviors considered here do not use it, so it is not a parameter. -/
structure GenServer (T S E : Type) where
  init : S → (Except E (Option Nat)) × S
  handle_call : T → S → HandlerOut T S
  handle_cast : T → S → HandlerOut T S
  handle_info : T → S → HandlerOut T S
  handle_timeout : S → HandlerOut T S

/-- Default body of `GenServer::handle_call`:
`panic!("handle_call callback not implemented")`. -/
def default_handle_call (T S : Type) (_message : T) (_state : S) : HandlerOut T S :=
  HandlerOut.panicked "handle_call callback not implemented"

/-- Default body of `GenServer::handle_cast`:
`panic!("handle_cast callback not implemented")`. -/
def default_handle_cast (T S : Type) (_message : T) (_state : S) : HandlerOut T S :=
  HandlerOut.panicked "handle_cast callback not implemented"

/-- Default body of `GenServer::handle_info`: `HandleResult::NoReply(None)`. -/
def default_handle_info (T S : Type) (_message : T) (state : S) : HandlerOut T S :=
  HandlerOut.ok (HandleResult.NoReply none) state

/-- Default body of `GenServer::handle_timeout`: `HandleResult::NoReply(None)`. -/
def default_handle_timeout (T S : Type) (state : S) : HandlerOut T S :=
  HandlerOut.ok (HandleResult.NoReply none) state

/-- Rust `set_timeout(wait_ms, &mut timeout)`:
`*current_timeout = Some(SteadyTime::now() + Duration::milliseconds(wait_ms))`.
It calls `now()` once, so it consumes one clock reading; returns the new
deadline and the new tick count. -/
def set_timeout (clock : Nat → Nat) (wait_ms : Nat) (ticks : Nat) :
    Option Nat × Nat :=
  (some (clock ticks + wait_ms), ticks + 1)

/-- Rust `shutdown(reason, reply, sender)`: best-effort send of the final
reply (the send result is discarded), then `Ok(())` for `Normal` and
`Err(AbnormalShutdown(e))` for `Other(e)`.  Takes and returns the list of
messages sent so far on the actor-to-caller channel. -/
def shutdown {T : Type} (reason : StopReason) (reply : Option T)
    (sent : List (Message T)) : List (Message T) × Except (ActorError T) Unit :=
  let sent1 := match reply with
    | some msg => sent ++ [Message.Reply msg]
    | none => sent
  match reason with
  | StopReason.Normal => (sent1, Except.ok ())
  | StopReason.Other e => (sent1, Except.error (ActorError.AbnormalShutdown e))

/-- The state threaded through run-loop iterations: the armed deadline
(`timeout` in the Rust source), the behavior state, the unread part of the
caller-to-actor queue with its disconnection flag, the messages sent so far
on the actor-to-caller channel, and the number of `now()` calls made. -/
structure RunState (T S : Type) where
  timeout : Option Nat
  state : S
  inbox : List (Message T)
  disconnected : Bool
  sent : List (Message T)
  ticks : Nat
deriving DecidableEq

instance {E A : Type} [DecidableEq E] [DecidableEq A] : DecidableEq (Except E A) :=
  fun x y =>
    match x, y with
    | Except.ok a, Except.ok b =>
      if h : a = b then Decidable.isTrue (congrArg Except.ok h)
      else Decidable.isFalse (fun he => h (Except.ok.inj he))
    | Except.ok _, Except.error _ => Decidable.isFalse (fun he => Except.noConfusion he)
    | Except.error _, Except.ok _ => Decidable.isFalse (fun he => Except.noConfusion he)
    | Except.error e, Except.error f =>
      if h : e = f then Decidable.isTrue (congrArg Except.error h)
      else Decidable.isFalse (fun he => h (Except.error.inj he))

/-- Outcome of one iteration of the run loop: continue with a new state,
terminate the spawned closure with a result (the thread join value), or
panic. -/
inductive StepResult (T S : Type) where
  | next : RunState T S → StepResult T S
  | done : List (Message T) → Except (ActorError T) Unit → StepResult T S
  | panicked : List (Message T) → String → StepResult T S
deriving DecidableEq

/-- The `match irx.try_recv()` half of a run-loop iteration: dispatch one
queued message (or observe Empty/Disconnected).  `try!(shutdown(..))` on an
`Ok` from `shutdown` falls through and the loop continues, exactly as in the
source. -/
def poll {T S E : Type} (spec : GenServer T S E) (clock : Nat → Nat)
    (st : RunState T S) : StepResult T S :=
  match st.inbox with
  | Message.Call msg :: rest =>
    match spec.handle_call msg st.state with
    | HandlerOut.panicked m => StepResult.panicked st.sent m
    | HandlerOut.ok hr s1 =>
      match hr with
      | HandleResult.Reply rmsg new_timeout =>
        let sent1 := st.sent ++ [Message.Reply rmsg]
        match new_timeout with
        | some ms =>
          let tk := set_timeout clock ms st.ticks
          StepResult.next { st with inbox := rest, state := s1, sent := sent1,
                                    timeout := tk.1, ticks := tk.2 }
        | none =>
          StepResult.next { st with inbox := rest, state := s1, sent := sent1 }
      | HandleResult.NoReply new_timeout =>
        match new_timeout with
        | some ms =>
          let tk := set_timeout clock ms st.ticks
          StepResult.next { st with inbox := rest, state := s1,
                                    timeout := tk.1, ticks := tk.2 }
        | none =>
          StepResult.next { st with inbox := rest, state := s1 }
      | HandleResult.Stop reason reply =>
        let sr := shutdown reason reply st.sent
        match sr.2 with
        | Except.ok _ =>
          StepResult.next { st with inbox := rest, state := s1, sent := sr.1 }
        | Except.error e => StepResult.done sr.1 (Except.error e)
  | Message.Cast msg :: rest =>
    match spec.handle_cast msg st.state with
    | HandlerOut.panicked m => StepResult.panicked st.sent m
    | HandlerOut.ok hr s1 =>
      match hr with
      | HandleResult.Stop reason reply =>
        let sr := shutdown reason reply st.sent
        match sr.2 with
        | Except.ok _ =>
          StepResult.next { st with inbox := rest, state := s1, sent := sr.1 }
        | Except.error e => StepResult.done sr.1 (Except.error e)
      | HandleResult.NoReply new_timeout =>
        match new_timeout with
        | some ms =>
          let tk := set_timeout clock ms st.ticks
          StepResult.next { st with inbox := rest, state := s1,
                                    timeout := tk.1, ticks := tk.2 }
        | none =>
          StepResult.next { st with inbox := rest, state := s1 }
      | HandleResult.Reply _ _ =>
        StepResult.panicked st.sent
          "unexpected `HandleResult` returned from handle_cast"
  | Message.Info msg :: rest =>
    match spec.handle_info msg st.state with
    | HandlerOut.panicked m => StepResult.panicked st.sent m
    | HandlerOut.ok hr s1 =>
      match hr with
      | HandleResult.Stop reason reply =>
        let sr := shutdown reason reply st.sent
        match sr.2 with
        | Except.ok _ =>
          StepResult.next { st with inbox := rest, state := s1, sent := sr.1 }
        | Except.error e => StepResult.done sr.1 (Except.error e)
      | HandleResult.NoReply new_timeout =>
        match new_timeout with
        | some ms =>
          let tk := set_timeout clock ms st.ticks
          StepResult.next { st with inbox := rest, state := s1,
                                    timeout := tk.1, ticks := tk.2 }
        | none =>
          StepResult.next { st with inbox := rest, state := s1 }
      | HandleResult.Reply _ _ =>
        StepResult.panicked st.sent
          "unexpected `HandleResult` returned from handle_info"
  | Message.Reply _ :: _ =>
    StepResult.panicked st.sent "received unexpected message type"
  | [] =>
    if st.disconnected then StepResult.done st.sent (Except.ok ())
    else StepResult.next st

/-- One full iteration of the Rust `loop`: first the deadline check
(`if let Some(go_time) = timeout { if go_time >= SteadyTime::now() { ... } }`,
with the comparison direction exactly as in the source), then the
`try_recv` dispatch.  The `NoReply(Some(0))` arm performs `continue`, skipping
the poll for this iteration. -/
def step {T S E : Type} (spec : GenServer T S E) (clock : Nat → Nat)
    (st : RunState T S) : StepResult T S :=
  match st.timeout with
  | some go_time =>
    let now := clock st.ticks
    let st1 : RunState T S := { st with ticks := st.ticks + 1 }
    if go_time ≥ now then
      match spec.handle_timeout st1.state with
      | HandlerOut.panicked m => StepResult.panicked st1.sent m
      | HandlerOut.ok hr s1 =>
        match hr with
        | HandleResult.Stop reason none =>
          let sr := shutdown reason none st1.sent
          match sr.2 with
          | Except.ok _ => poll spec clock { st1 with state := s1, sent := sr.1 }
          | Except.error e => StepResult.done sr.1 (Except.error e)
        | HandleResult.NoReply (some 0) =>
          let tk := set_timeout clock 0 st1.ticks
          StepResult.next { st1 with state := s1, timeout := tk.1, ticks := tk.2 }
        | HandleResult.NoReply new_timeout =>
          match new_timeout with
          | some ms =>
            let tk := set_timeout clock ms st1.ticks
            poll spec clock { st1 with state := s1, timeout := tk.1, ticks := tk.2 }
          | none => poll spec clock { st1 with state := s1 }
        | _ =>
          StepResult.panicked st1.sent
            "unexpected `HandleResult` returned from handle_timeout"
    else poll spec clock st1
  | none => poll spec clock st

/-- Result of running the loop for a bounded number of iterations:
`done`/`panicked` as in `StepResult`, or `running` when the fuel ran out with
the loop still alive. -/
inductive RunResult (T S : Type) where
  | done : List (Message T) → Except (ActorError T) Unit → RunResult T S
  | panicked : List (Message T) → String → RunResult T S
  | running : RunState T S → RunResult T S
deriving DecidableEq

/-- Iterate `step` for at most `fuel` iterations. -/
def run {T S E : Type} (spec : GenServer T S E) (clock : Nat → Nat) :
    Nat → RunState T S → RunResult T S
  | 0, st => RunResult.running st
  | Nat.succ n, st =>
    match step spec clock st with
    | StepResult.next st1 => run spec clock n st1
    | StepResult.done sent r => RunResult.done sent r
    | StepResult.panicked sent m => RunResult.panicked sent m

/-- The messages sent so far on the actor-to-caller channel, for any step
outcome. -/
def StepResult.sentList {T S : Type} : StepResult T S → List (Message T)
  | StepResult.next st => st.sent
  | StepResult.done sent _ => sent
  | StepResult.panicked sent _ => sent

/-- The messages sent on the actor-to-caller channel, for any run outcome. -/
def RunResult.sentList {T S : Type} : RunResult T S → List (Message T)
  | RunResult.done sent _ => sent
  | RunResult.panicked sent _ => sent
  | RunResult.running st => st.sent

/-- Caller-side outcome of `Actor::call`. -/
inductive CallOutcome (T : Type) where
  | ok : T → CallOutcome T
  | panicked : String → CallOutcome T
  | recvFailed : CallOutcome T
deriving DecidableEq

/-- The receive half of `Actor::call`: `self.receiver.recv()` yields the next
unconsumed message on the actor-to-caller channel.  `Ok(Message::Reply(msg))`
succeeds with `msg`; any other message is `panic!("must reply from a call!")`;
an exhausted channel whose sender is gone is a `RecvError`. -/
def recvReply {T : Type} (pending : List (Message T)) : CallOutcome T :=
  match pending with
  | Message.Reply m :: _ => CallOutcome.ok m
  | _ :: _ => CallOutcome.panicked "must reply from a call!"
  | [] => CallOutcome.recvFailed

/-- Rust `Builder<T>`: a behavior plus an optional thread name. -/
structure Builder (T S E : Type) where
  name : Option String
  spec : GenServer T S E

/-- Rust `Builder::new(spec)`. -/
def Builder.new {T S E : Type} (spec : GenServer T S E) : Builder T S E :=
  { name := none, spec := spec }

/-- Rust `Builder::name(name)` (named `setName` here because `name` is the
field accessor). -/
def Builder.setName {T S E : Type} (b : Builder T S E) (n : String) :
    Builder T S E :=
  { b with name := some n }

/-- What `Builder::start` hands to the spawned thread: the thread's name and
the initial run-loop state (`timeout` seeded from `init`'s
`initial_wait_ms` via `set_timeout`, empty queues, behavior state after
`init`). -/
structure Started (T S : Type) where
  threadName : String
  loop : RunState T S

/-- Rust `Builder::start(state)`: runs `init` synchronously; on `Err` the
error is returned directly and nothing is spawned; on `Ok` the run loop is
spawned with the optional initial deadline and the actor handle is returned.
The spawned loop's initial state is reported as a `Started` value. -/
def Builder.start {T S E : Type} (b : Builder T S E) (state : S)
    (clock : Nat → Nat) : Except E (Started T S) :=
  match b.spec.init state with
  | (Except.error err, _) => Except.error err
  | (Except.ok initial_wait_ms, state1) =>
    let tk : Option Nat × Nat :=
      match initial_wait_ms with
      | some ms => set_timeout clock ms 0
      | none => (none, 0)
    Except.ok
      { threadName := b.name.getD "GenServer",
        loop := { timeout := tk.1, state := state1, inbox := [],
                  disconnected := false, sent := [], ticks := tk.2 } }

/-- Everything observable about a started actor other than the cosmetic
thread name: the start outcome and, on success, the full run outcome
(replies sent and the join result) after the caller has enqueued `inbox`
(with `dis` recording whether the caller-side senders were then dropped). -/
def startObs {T S E : Type} (b : Builder T S E) (state : S)
    (clock : Nat → Nat) (fuel : Nat) (inbox : List (Message T)) (dis : Bool) :
    Except E (RunResult T S) :=
  Except.map
    (fun a => run b.spec clock fuel
      { a.loop with inbox := inbox, disconnected := dis })
    (b.start state clock)

/-- Behavior whose timeout handler stops abnormally with reason `"fired"`,
making a `handle_timeout` invocation observable in the join result. -/
def timeoutStopSpec : GenServer Nat Unit Unit where
  init := fun s => (Except.ok none, s)
  handle_call := default_handle_call Nat Unit
  handle_cast := default_handle_cast Nat Unit
  handle_info := default_handle_info Nat Unit
  handle_timeout := fun s =>
    HandlerOut.ok (HandleResult.Stop (StopReason.Other "fired") none) s

/-- Behavior whose cast handler stops normally with final reply `7` and whose
call handler replies with the message plus one. -/
def castStopReplySpec : GenServer Nat Nat Unit where
  init := fun s => (Except.ok none, s)
  handle_call := fun m s => HandlerOut.ok (HandleResult.Reply (m + 1) none) s
  handle_cast := fun _ s =>
    HandlerOut.ok (HandleResult.Stop StopReason.Normal (some 7)) s
  handle_info := default_handle_info Nat Nat
  handle_timeout := default_handle_timeout Nat Nat

/-- Behavior whose timeout handler asks for busy-timeout semantics,
`NoReply(Some(0))`, and counts its invocations in the state. -/
def busyTimeoutSpec : GenServer Nat Nat Unit where
  init := fun s => (Except.ok none, s)
  handle_call := default_handle_call Nat Nat
  handle_cast := default_handle_cast Nat Nat
  handle_info := default_handle_info Nat Nat
  handle_timeout := fun s => HandlerOut.ok (HandleResult.NoReply (some 0)) (s + 1)

/-- Behavior whose call handler returns `NoReply(None)` — the variant the
specification calls a contract violation for a call. -/
def noReplyCallSpec : GenServer Nat Unit Unit where
  init := fun s => (Except.ok none, s)
  handle_call := fun _ s => HandlerOut.ok (HandleResult.NoReply none) s
  handle_cast := default_handle_cast Nat Unit
  handle_info := default_handle_info Nat Unit
  handle_timeout := default_handle_timeout Nat Unit

/-- Behavior whose cast handler stops normally with no final reply and whose
call handler echoes the message. -/
def normalStopSpec : GenServer Nat Nat Unit where
  init := fun s => (Except.ok none, s)
  handle_call := fun m s => HandlerOut.ok (HandleResult.Reply m none) s
  handle_cast := fun _ s =>
    HandlerOut.ok (HandleResult.Stop StopReason.Normal none) s
  handle_info := default_handle_info Nat Nat
  handle_timeout := default_handle_timeout Nat Nat

/-- Behavior whose cast handler stops abnormally with reason `"boom"` and
final reply `3`. -/
def abnormalStopSpec : GenServer Nat Nat Unit where
  init := fun s => (Except.ok none, s)
  handle_call := default_handle_call Nat Nat
  handle_cast := fun _ s =>
    HandlerOut.ok (HandleResult.Stop (StopReason.Other "boom") (some 3)) s
  handle_info := default_handle_info Nat Nat
  handle_timeout := default_handle_timeout Nat Nat

/-- Behavior whose `init` fails with `"init failed"`. -/
def failInitSpec : GenServer Nat Nat String where
  init := fun s => (Except.error "init failed", s)
  handle_call := default_handle_call Nat Nat
  handle_cast := default_handle_cast Nat Nat
  handle_info := default_handle_info Nat Nat
  handle_timeout := default_handle_timeout Nat Nat

/-- Behavior whose `init` succeeds, requests an initial timeout of 5 ms and
marks the state initialized (sets it to 1). -/
def initTimeoutSpec : GenServer Nat Nat String where
  init := fun _ => (Except.ok (some 5), 1)
  handle_call := default_handle_call Nat Nat
  handle_cast := default_handle_cast Nat Nat
  handle_info := default_handle_info Nat Nat
  handle_timeout := default_handle_timeout Nat Nat

/-- Behavior keeping every default handler (only `init` is implemented),
as in a `GenServer` impl that overrides nothing. -/
def defaultsOnlySpec : GenServer Nat Unit Unit where
  init := fun s => (Except.ok none, s)
  handle_call := default_handle_call Nat Unit
  handle_cast := default_handle_cast Nat Unit
  handle_info := default_handle_info Nat Unit
  handle_timeout := default_handle_timeout Nat Unit

/-- Behavior whose timeout handler returns `Stop(Normal, Some(1))` — a stop
carrying a final reply, from `handle_timeout`. -/
def stopReplyTimeoutSpec : GenServer Nat Unit Unit where
  init := fun s => (Except.ok none, s)
  handle_call := default_handle_call Nat Unit
  handle_cast := default_handle_cast Nat Unit
  handle_info := default_handle_info Nat Unit
  handle_timeout := fun s =>
    HandlerOut.ok (HandleResult.Stop StopReason.Normal (some 1)) s

/-- C1: the source condition `go_time >= SteadyTime::now()` fires the timeout
while the current time (5) is still before the armed deadline (10), and does
NOT fire once the current time (10) has passed the deadline (5) — the
opposite of the claimed "invoke exactly when now has reached or passed the
deadline". -/
theorem timeout_fires_only_before_deadline :
    step timeoutStopSpec (fun _ => 5)
        { timeout := some 10, state := (), inbox := [], disconnected := true,
          sent := [], ticks := 0 }
      = StepResult.done [] (Except.error (ActorError.AbnormalShutdown "fired"))
    ∧ step timeoutStopSpec (fun _ => 10)
        { timeout := some 5, state := (), inbox := [], disconnected := true,
          sent := [], ticks := 0 }
      = StepResult.done [] (Except.ok ()) := by
  constructor
  · rfl
  · rfl

/-- C2 counterexample: with the queue `[Cast 9, Call 5]`, the cast handler
stops with final reply `7`; the caller's `call(5)` then receives `7`
(`recvReply` of the sent stream), although the matching `handle_call`
invocation placed `6` in its Reply variant. -/
theorem call_consumes_cast_final_reply :
    run castStopReplySpec (fun _ => 0) 3
        { timeout := none, state := 0, inbox := [Message.Cast 9, Message.Call 5],
          disconnected := false, sent := [], ticks := 0 }
      = RunResult.running
          { timeout := none, state := 0, inbox := [], disconnected := false,
            sent := [Message.Reply 7, Message.Reply 6], ticks := 0 }
    ∧ recvReply [Message.Reply 7, Message.Reply 6] = CallOutcome.ok 7
    ∧ castStopReplySpec.handle_call 5 0
      = HandlerOut.ok (HandleResult.Reply 6 none) 0
    ∧ (7 : Nat) ≠ 6 := by
  refine ⟨rfl, rfl, rfl, ?_⟩
  decide

/-- C2 (amended): when no earlier Reply envelope is pending on the
actor-to-caller channel, dispatching `Call msg` with a handler that returns
`Reply(r, t)` sends exactly `Reply r`, and the caller's receive yields `r`. -/
theorem call_reply_matches_when_no_prior_reply {T S E : Type}
    (spec : GenServer T S E) (clock : Nat → Nat) (m r : T) (s s1 : S)
    (t : Option Nat) (rest : List (Message T)) (dis : Bool) (tk : Nat)
    (h : spec.handle_call m s = HandlerOut.ok (HandleResult.Reply r t) s1) :
    (step spec clock
        { timeout := none, state := s, inbox := Message.Call m :: rest,
          disconnected := dis, sent := [], ticks := tk }).sentList
      = [Message.Reply r]
    ∧ recvReply (step spec clock
        { timeout := none, state := s, inbox := Message.Call m :: rest,
          disconnected := dis, sent := [], ticks := tk }).sentList
      = CallOutcome.ok r := by
  cases t <;> simp [step, poll, h, StepResult.sentList, recvReply]

/-- C2 witness: the amended statement at `castStopReplySpec`, message `5`. -/
theorem call_reply_matches_when_no_prior_reply_witness :
    (step castStopReplySpec (fun _ => 0)
        { timeout := none, state := 0, inbox := [Message.Call 5],
          disconnected := false, sent := [], ticks := 0 }).sentList
      = [Message.Reply 6]
    ∧ recvReply (step castStopReplySpec (fun _ => 0)
        { timeout := none, state := 0, inbox := [Message.Call 5],
          disconnected := false, sent := [], ticks := 0 }).sentList
      = CallOutcome.ok 6 :=
  call_reply_matches_when_no_prior_reply castStopReplySpec (fun _ => 0)
    5 6 0 0 none [] false 0 rfl

/-- C3: with a strictly increasing clock and a timeout handler that always
returns `NoReply(Some(0))`, the handler (which counts its invocations in the
state) runs exactly once over 4 and even 10 loop iterations: the re-armed
deadline equals the arming-time reading, and the source condition
`deadline >= now` is false on every later iteration, so the busy-timeout
never fires again. -/
theorem busy_timeout_reinvocation_fails :
    run busyTimeoutSpec (fun i => i) 4
        { timeout := some 0, state := 0, inbox := [], disconnected := false,
          sent := [], ticks := 0 }
      = RunResult.running
          { timeout := some 1, state := 1, inbox := [], disconnected := false,
            sent := [], ticks := 5 }
    ∧ run busyTimeoutSpec (fun i => i) 10
        { timeout := some 0, state := 0, inbox := [], disconnected := false,
          sent := [], ticks := 0 }
      = RunResult.running
          { timeout := some 1, state := 1, inbox := [], disconnected := false,
            sent := [], ticks := 11 } := by
  constructor
  · rfl
  · rfl

/-- C4 counterexample: dispatching a Call whose handler returns
`NoReply(None)` does not panic and is not fatal — the iteration completes
normally and the loop continues with the message consumed and no reply
sent. -/
theorem call_noreply_does_not_panic :
    step noReplyCallSpec (fun _ => 0)
        { timeout := none, state := (), inbox := [Message.Call 0],
          disconnected := false, sent := [], ticks := 0 }
      = StepResult.next
          { timeout := none, state := (), inbox := [], disconnected := false,
            sent := [], ticks := 0 } := by
  rfl

/-- C4 (amended): a `NoReply` result from `handle_call` is accepted as a
valid outcome of a Call dispatch: the loop continues with the message
consumed, the handler's new state installed, and nothing sent to the caller
(so the caller stays blocked); it is not treated as a fatal contract
violation. -/
theorem call_noreply_accepted {T S E : Type}
    (spec : GenServer T S E) (clock : Nat → Nat) (m : T) (s s1 : S)
    (nt : Option Nat) (rest : List (Message T)) (dis : Bool)
    (sent : List (Message T)) (tk : Nat)
    (h : spec.handle_call m s = HandlerOut.ok (HandleResult.NoReply nt) s1) :
    ∃ st1, step spec clock
        { timeout := none, state := s, inbox := Message.Call m :: rest,
          disconnected := dis, sent := sent, ticks := tk }
      = StepResult.next st1
    ∧ st1.inbox = rest ∧ st1.state = s1 ∧ st1.sent = sent := by
  cases nt with
  | none =>
    refine ⟨{ timeout := none, state := s1, inbox := rest, disconnected := dis,
              sent := sent, ticks := tk }, ?_, rfl, rfl, rfl⟩
    simp [step, poll, h]
  | some ms =>
    refine ⟨{ timeout := (set_timeout clock ms tk).1, state := s1, inbox := rest,
              disconnected := dis, sent := sent,
              ticks := (set_timeout clock ms tk).2 }, ?_, rfl, rfl, rfl⟩
    simp [step, poll, h]

/-- C4 witness: the amended statement at `noReplyCallSpec`, message `0`. -/
theorem call_noreply_accepted_witness :
    ∃ st1, step noReplyCallSpec (fun _ => 0)
        { timeout := none, state := (), inbox := [Message.Call 0],
          disconnected := false, sent := [], ticks := 0 }
      = StepResult.next st1
    ∧ st1.inbox = [] ∧ st1.state = () ∧ st1.sent = [] :=
  call_noreply_accepted noReplyCallSpec (fun _ => 0) 0 () ()
    none [] false [] 0 rfl

/-- C5: after a cast handler returns `Stop(Normal, None)`, the loop does NOT
terminate: `try!(shutdown(..))` yields `Ok(())` and the loop goes on to
process the next queued Call and reply to it (first conjunct).  The
`Stop(Other("boom"), Some(3))` case does terminate, with the final reply `3`
sent first and the join result `AbnormalShutdown("boom")` (second
conjunct). -/
theorem normal_stop_does_not_terminate_loop :
    run normalStopSpec (fun _ => 0) 2
        { timeout := none, state := 0, inbox := [Message.Cast 9, Message.Call 5],
          disconnected := false, sent := [], ticks := 0 }
      = RunResult.running
          { timeout := none, state := 0, inbox := [], disconnected := false,
            sent := [Message.Reply 5], ticks := 0 }
    ∧ step abnormalStopSpec (fun _ => 0)
        { timeout := none, state := 0, inbox := [Message.Cast 9],
          disconnected := false, sent := [], ticks := 0 }
      = StepResult.done [Message.Reply 3]
          (Except.error (ActorError.AbnormalShutdown "boom")) := by
  constructor
  · rfl
  · rfl

/-- C6: with no deadline armed, polling a disconnected empty queue exits the
loop with `Ok(())` (ordinary shutdown, nothing more sent), while an empty but
still-connected queue proceeds to the next iteration with the state
untouched. -/
theorem disconnect_exits_ok_empty_continues {T S E : Type}
    (spec : GenServer T S E) (clock : Nat → Nat) (s : S)
    (sent : List (Message T)) (tk : Nat) :
    step spec clock
        { timeout := none, state := s, inbox := [], disconnected := true,
          sent := sent, ticks := tk }
      = StepResult.done sent (Except.ok ())
    ∧ step spec clock
        { timeout := none, state := s, inbox := [], disconnected := false,
          sent := sent, ticks := tk }
      = StepResult.next
          { timeout := none, state := s, inbox := [], disconnected := false,
            sent := sent, ticks := tk } := by
  constructor
  · rfl
  · rfl

/-- C7: `start` runs `init` synchronously: when `init` fails the error is
returned directly and nothing is spawned (the result holds no `Started`
value); when `init` succeeds the loop is spawned with the thread name from
the builder, the deadline seeded from `init`'s optional wait (at the first
clock reading), the post-`init` state, and empty channels. -/
theorem start_init_gates_spawn {T S E : Type} (b : Builder T S E) (s : S)
    (clock : Nat → Nat) :
    (∀ e, (b.spec.init s).1 = Except.error e →
      b.start s clock = Except.error e)
    ∧ (∀ w, (b.spec.init s).1 = Except.ok w →
      ∃ a, b.start s clock = Except.ok a
        ∧ a.threadName = b.name.getD "GenServer"
        ∧ a.loop.timeout = Option.map (fun ms => clock 0 + ms) w
        ∧ a.loop.state = (b.spec.init s).2
        ∧ a.loop.inbox = [] ∧ a.loop.sent = [] ∧ a.loop.disconnected = false) := by
  rcases hini : b.spec.init s with ⟨r, s2⟩
  constructor
  · intro e he
    have hr : r = Except.error e := he
    subst hr
    unfold Builder.start
    rw [hini]
  · intro w hw
    have hr : r = Except.ok w := hw
    subst hr
    cases w with
    | none =>
      refine ⟨{ threadName := b.name.getD "GenServer",
                loop := { timeout := none, state := s2, inbox := [],
                          disconnected := false, sent := [], ticks := 0 } },
              ?_, rfl, rfl, rfl, rfl, rfl, rfl⟩
      unfold Builder.start
      rw [hini]
    | some ms =>
      refine ⟨{ threadName := b.name.getD "GenServer",
                loop := { timeout := some (clock 0 + ms), state := s2, inbox := [],
                          disconnected := false, sent := [], ticks := 1 } },
              ?_, rfl, rfl, rfl, rfl, rfl, rfl⟩
      unfold Builder.start
      rw [hini]
      rfl

/-- C7 witness: `failInitSpec` makes `start` return its init error directly;
`initTimeoutSpec` starts successfully. -/
theorem start_init_gates_spawn_witness :
    (Builder.new failInitSpec).start 0 (fun _ => 0) = Except.error "init failed"
    ∧ ((Builder.new initTimeoutSpec).start 0 (fun _ => 3)).isOk = true := by
  constructor
  · exact (start_init_gates_spawn (Builder.new failInitSpec) 0 (fun _ => 0)).1
      "init failed" rfl
  · obtain ⟨a, ha, -⟩ :=
      (start_init_gates_spawn (Builder.new initTimeoutSpec) 0 (fun _ => 3)).2
        (some 5) rfl
    rw [ha]
    rfl

/-- C8: with the default handlers, dispatching a Call or a Cast panics with
the documented message (fatal, not silently ignored), while dispatching an
Info with the default handler continues with nothing changed, and a firing
timeout with the default handler continues with the deadline state
unchanged. -/
theorem default_handler_dispatch {T S E : Type} (spec : GenServer T S E)
    (clock : Nat → Nat) (m : T) (s : S) (rest : List (Message T)) (dis : Bool)
    (sent : List (Message T)) (tk go : Nat) :
    (spec.handle_call = default_handle_call T S →
      step spec clock
          { timeout := none, state := s, inbox := Message.Call m :: rest,
            disconnected := dis, sent := sent, ticks := tk }
        = StepResult.panicked sent "handle_call callback not implemented")
    ∧ (spec.handle_cast = default_handle_cast T S →
      step spec clock
          { timeout := none, state := s, inbox := Message.Cast m :: rest,
            disconnected := dis, sent := sent, ticks := tk }
        = StepResult.panicked sent "handle_cast callback not implemented")
    ∧ (spec.handle_info = default_handle_info T S →
      step spec clock
          { timeout := none, state := s, inbox := Message.Info m :: rest,
            disconnected := dis, sent := sent, ticks := tk }
        = StepResult.next
            { timeout := none, state := s, inbox := rest,
              disconnected := dis, sent := sent, ticks := tk })
    ∧ (spec.handle_timeout = default_handle_timeout T S → clock tk ≤ go →
      step spec clock
          { timeout := some go, state := s, inbox := [],
            disconnected := false, sent := sent, ticks := tk }
        = StepResult.next
            { timeout := some go, state := s, inbox := [],
              disconnected := false, sent := sent, ticks := tk + 1 }) := by
  refine ⟨?_, ?_, ?_, ?_⟩
  · intro h
    simp [step, poll, h, default_handle_call]
  · intro h
    simp [step, poll, h, default_handle_cast]
  · intro h
    simp [step, poll, h, default_handle_info]
  · intro h hgo
    simp [step, poll, h, default_handle_timeout, hgo]

/-- C8 witness: the four default-dispatch facts at `defaultsOnlySpec`. -/
theorem default_handler_dispatch_witness :
    step defaultsOnlySpec (fun _ => 0)
        { timeout := none, state := (), inbox := [Message.Call 1],
          disconnected := false, sent := [], ticks := 0 }
      = StepResult.panicked [] "handle_call callback not implemented"
    ∧ step defaultsOnlySpec (fun _ => 0)
        { timeout := none, state := (), inbox := [Message.Cast 1],
          disconnected := false, sent := [], ticks := 0 }
      = StepResult.panicked [] "handle_cast callback not implemented"
    ∧ step defaultsOnlySpec (fun _ => 0)
        { timeout := none, state := (), inbox := [Message.Info 1],
          disconnected := false, sent := [], ticks := 0 }
      = StepResult.next
          { timeout := none, state := (), inbox := [], disconnected := false,
            sent := [], ticks := 0 }
    ∧ step defaultsOnlySpec (fun _ => 0)
        { timeout := some 2, state := (), inbox := [], disconnected := false,
          sent := [], ticks := 0 }
      = StepResult.next
          { timeout := some 2, state := (), inbox := [], disconnected := false,
            sent := [], ticks := 1 } := by
  refine ⟨?_, ?_, ?_, ?_⟩
  · exact (default_handler_dispatch defaultsOnlySpec (fun _ => 0) 1 () [] false
      [] 0 2).1 rfl
  · exact (default_handler_dispatch defaultsOnlySpec (fun _ => 0) 1 () [] false
      [] 0 2).2.1 rfl
  · exact (default_handler_dispatch defaultsOnlySpec (fun _ => 0) 1 () [] false
      [] 0 2).2.2.1 rfl
  · exact (default_handler_dispatch defaultsOnlySpec (fun _ => 0) 1 () [] false
      [] 0 2).2.2.2 rfl (by decide)

/-- C9: when the armed deadline passes the source's firing test, a
`handle_timeout` result of `Stop(reason, Some(r))` hits the fatal catch-all
(panic) instead of the shutdown sequence, while `Stop(Other(e), None)` does
run the shutdown sequence and terminates with `AbnormalShutdown(e)`. -/
theorem timeout_stop_reply_hits_catch_all {T S E : Type} (spec : GenServer T S E)
    (clock : Nat → Nat) (go : Nat) (s s1 : S) (reason : StopReason) (r : T)
    (inbox : List (Message T)) (dis : Bool) (sent : List (Message T)) (tk : Nat)
    (hfires : clock tk ≤ go) :
    (spec.handle_timeout s
        = HandlerOut.ok (HandleResult.Stop reason (some r)) s1 →
      step spec clock
          { timeout := some go, state := s, inbox := inbox,
            disconnected := dis, sent := sent, ticks := tk }
        = StepResult.panicked sent
            "unexpected `HandleResult` returned from handle_timeout")
    ∧ (∀ e, spec.handle_timeout s
        = HandlerOut.ok (HandleResult.Stop (StopReason.Other e) none) s1 →
      step spec clock
          { timeout := some go, state := s, inbox := inbox,
            disconnected := dis, sent := sent, ticks := tk }
        = StepResult.done sent
            (Except.error (ActorError.AbnormalShutdown e))) := by
  constructor
  · intro h
    simp [step, h, hfires]
  · intro e h
    simp [step, h, hfires, shutdown]

/-- C9 witness: the two halves at `stopReplyTimeoutSpec` and
`timeoutStopSpec`, deadline 4, current time 0. -/
theorem timeout_stop_reply_hits_catch_all_witness :
    step stopReplyTimeoutSpec (fun _ => 0)
        { timeout := some 4, state := (), inbox := [], disconnected := true,
          sent := [], ticks := 0 }
      = StepResult.panicked []
          "unexpected `HandleResult` returned from handle_timeout"
    ∧ step timeoutStopSpec (fun _ => 0)
        { timeout := some 4, state := (), inbox := [], disconnected := true,
          sent := [], ticks := 0 }
      = StepResult.done [] (Except.error (ActorError.AbnormalShutdown "fired")) := by
  constructor
  · exact (timeout_stop_reply_hits_catch_all stopReplyTimeoutSpec (fun _ => 0)
      4 () () StopReason.Normal 1 [] true [] 0 (by decide)).1 rfl
  · exact (timeout_stop_reply_hits_catch_all timeoutStopSpec (fun _ => 0)
      4 () () StopReason.Normal 0 [] true [] 0 (by decide)).2 "fired" rfl

/-- C10: the builder's name is cosmetic.  For every behavior, initial state,
clock, message sequence and fuel, starting with `setName n` yields the same
start outcome and the same full run observables (replies sent and join
result) as starting without it; the spawned loop state itself is
identical. -/
theorem name_has_no_behavioral_effect {T S E : Type} (b : Builder T S E)
    (n : String) (s : S) (clock : Nat → Nat) (fuel : Nat)
    (inbox : List (Message T)) (dis : Bool) :
    startObs (b.setName n) s clock fuel inbox dis
      = startObs b s clock fuel inbox dis
    ∧ Except.map Started.loop ((b.setName n).start s clock)
      = Except.map Started.loop (b.start s clock) := by
  rcases hini : b.spec.init s with ⟨r, s2⟩
  cases r <;>
    simp [startObs, Builder.start, Builder.setName, hini, Except.map]
